import Mathlib

/-!
Verification development for the DeConveil repository (CNV-aware DESeq2-style
dispersion / LFC estimation).

The Python sources embedded here:
  * src/deconveil/dds.py                                   (class deconveil_fit)
  * src/deconveil/.ipynb_checkpoints/utils_pydeseqCN-checkpoint.py
                                                           (irls_glm, grid_fit_beta)

Modelling conventions.
  * Machine floats are modelled by `ℚ`; a numpy NaN entry is modelled by
    `Option ℚ` with `none` standing for NaN (comparisons against NaN are
    `False` in numpy, which `optGt` reproduces).
  * Matrices are functions `Fin samples → Fin genes → ℚ` (numpy layout:
    rows = samples, columns = genes).
  * Calls into external collaborator libraries (scipy, numpy.linalg, the
    pydeseq2 utility primitives such as nb_nll / trimmed_mean /
    mean_absolute_deviation / n_or_more_replicates, and the Inference
    object's batched solvers) are modelled as explicit function parameters
    ("oracles"): the embedding records exactly which arguments the source
    hands to each collaborator and how its result flows onward, while the
    collaborator itself stays an arbitrary pure function.
-/

namespace DeConveil

/-- Sum of `f` over all indices of `Fin n` (numpy `.sum()` over a vector). -/
def sumFin (n : ℕ) (f : Fin n → ℚ) : ℚ :=
  ((List.finRange n).map f).sum

/-- `True` iff `f` holds somewhere (numpy `.any()` over a boolean vector). -/
def anyFin (n : ℕ) (f : Fin n → Bool) : Bool :=
  (List.finRange n).any f

/-- `True` iff `f` holds everywhere (numpy `.all()` over a boolean vector). -/
def allFin (n : ℕ) (f : Fin n → Bool) : Bool :=
  (List.finRange n).all f

/-- numpy `>` against a possibly-NaN left operand: any comparison with NaN
is `False`. -/
def optGt (a : Option ℚ) (b : Option ℚ) : Bool :=
  match a, b with
  | some x, some y => decide (y < x)
  | _, _ => false

/-- numpy `>=` against a possibly-NaN left operand. -/
def optGe (a : Option ℚ) (b : ℚ) : Bool :=
  match a with
  | some x => decide (b ≤ x)
  | none => false

/-- `np.log` mapped over a possibly-NaN value; the log itself is an oracle
(`ℚ` stands in for the float). `np.log NaN = NaN`. -/
def optLog (log : ℚ → ℚ) (a : Option ℚ) : Option ℚ :=
  a.map log

/-- NaN-propagating addition of a plain scalar (numpy broadcast `+`). -/
def optAddConst (a : Option ℚ) (c : ℚ) : Option ℚ :=
  a.map (· + c)

/-- `np.maximum(a, b)` on reals: the larger argument. -/
def np_maximum (a b : ℚ) : ℚ :=
  if b ≤ a then a else b

/-- `np.minimum(a, b)` on reals: the smaller argument. -/
def np_minimum (a b : ℚ) : ℚ :=
  if a ≤ b then a else b

/-- `np.clip(x, lo, hi)`, which numpy documents as
`np.minimum(hi, np.maximum(x, lo))`. -/
def np_clip (x lo hi : ℚ) : ℚ :=
  np_minimum (np_maximum x lo) hi

/-- numpy `.astype(int)` on a float: truncation toward zero (C cast). -/
def np_astype_int (x : ℚ) : ℤ :=
  if 0 ≤ x then ⌊x⌋ else ⌈x⌉

/-- `np.abs` on reals. -/
def np_abs (x : ℚ) : ℚ :=
  if x ≤ 0 then -x else x

/-!
### dds.py, `deconveil_fit.__init__`, lines 158-159: the shape check

```python
if self.data["counts"].shape[0] != self.data["cnv"].shape[0] and \
   self.data["counts"].shape[1] != self.data["cnv"].shape[1]:
    raise ValueError("Matrices must have the same dimensions ...")
```

The function below returns `true` exactly when the constructor raises.
Shapes are `(rows, columns) = (samples, genes)` pairs.
-/

/-- dds.py lines 158-159: does `deconveil_fit.__init__` raise the
dimension-mismatch `ValueError` for the given counts / cnv shapes? -/
def shape_mismatch_raises (countsShape cnvShape : ℕ × ℕ) : Bool :=
  decide (countsShape.1 ≠ cnvShape.1) && decide (countsShape.2 ≠ cnvShape.2)

/-!
### dds.py line 192 and the dispersion clipping sites

`self.max_disp = np.maximum(max_disp, self.n_obs)` (line 192); every
emitted dispersion family is clipped to `[self.min_disp, self.max_disp]`:
genewise at lines 567-570, MAP at lines 704-707, method-of-moments at
lines 883-886.  The final `dispersions` array (lines 713-720) selects per
gene between the clipped MAP array and the clipped genewise array.
-/

/-- dds.py line 192: the dispersion upper bound actually stored on the
object, `np.maximum(max_disp, self.n_obs)`. -/
def self_max_disp (max_disp : ℚ) (n_obs : ℕ) : ℚ :=
  np_maximum max_disp (n_obs : ℚ)

/-- dds.py lines 567-570 (equally 704-707 for the MAP stage): the value
written at a non-zero gene of `varm["genewise_dispersions"]`
(resp. `varm["MAP_dispersions"]`), given the raw optimizer output for that
gene: `np.clip(dispersions_, self.min_disp, self.max_disp)`. -/
def clipped_dispersion (min_disp max_disp : ℚ) (n_obs : ℕ) (raw : ℚ) : ℚ :=
  np_clip raw min_disp (self_max_disp max_disp n_obs)

/-!
### dds.py, `fit_MAP_dispersions`, lines 713-720: shrinkage outlier filter

```python
self.varm["dispersions"] = self.varm["MAP_dispersions"].copy()
self.varm["_outlier_genes"] = np.log(genewise) > np.log(fitted) + 2*np.sqrt(squared_logres)
self.varm["dispersions"][outliers] = genewise[outliers]
```

Arrays are full-length with NaN (`none`) at all-zero genes; `np.log` and
`np.sqrt` are oracles.
-/

/-- dds.py lines 714-716: the `_outlier_genes` mask.  NaN entries compare
`False` (numpy), so all-zero genes are never flagged. -/
def outlier_genes_mask (log sqrt : ℚ → ℚ) (n : ℕ)
    (genewise fitted : Fin n → Option ℚ) (squared_logres : ℚ) :
    Fin n → Bool :=
  fun j =>
    optGt (optLog log (genewise j))
      (optAddConst (optLog log (fitted j)) (2 * sqrt squared_logres))

/-- dds.py lines 713 and 718-720: `dispersions` starts as a copy of
`MAP_dispersions` and outlier genes are overwritten with their genewise
estimate. -/
def dispersions_after_filter (n : ℕ) (outlier : Fin n → Bool)
    (MAP genewise : Fin n → Option ℚ) : Fin n → Option ℚ :=
  fun j => if outlier j then genewise j else MAP j

/-!
### utils_pydeseqCN-checkpoint.py: `irls_glm` (single gene)

The checkpoint file holds the only copy of `irls_glm` in the repository
(dds.py imports it via `deconveil.utils_CNaware`).  Per-gene inputs:
`counts`, `size_factors`, `cnv` are length-`m` vectors, `design_matrix`
is `m × p`, `disp` is a scalar.

External calls bundled in `IRLSOracle`:
  * `exp`, `log`, `sqrt` — numpy elementwise transcendentals;
  * `nb_nll` — `pydeseq2.utils.nb_nll(counts, mu, disp)` (referenced by
    bare name in the source);
  * `rank_eq_num_vars` — the value of
    `np.linalg.matrix_rank(X) == num_vars` for the design at hand;
  * `qr_solve` — `solve(R, Q.T @ y)` after `np.linalg.qr(X)`, as a
    function of `y`;
  * `solve_pos` — `scipy.linalg.solve(H, rhs, assume_a="pos")`;
  * `minimize` — `scipy.optimize.minimize(f, beta_init, jac=df, ...)`,
    as a function of the objective `f`, the gradient `df`, the starting
    point and the `(min_beta, max_beta)` bound pair, returning
    `(res.x, res.success)`;
  * `inv` — `np.linalg.inv`.
-/

/-- External numeric collaborators used by `irls_glm` (see section
comment). -/
structure IRLSOracle (m p : ℕ) where
  exp : ℚ → ℚ
  log : ℚ → ℚ
  sqrt : ℚ → ℚ
  nb_nll : (Fin m → ℚ) → (Fin m → ℚ) → ℚ → ℚ
  rank_eq_num_vars : Bool
  qr_solve : (Fin m → ℚ) → Fin p → ℚ
  solve_pos : (Fin p → Fin p → ℚ) → (Fin p → ℚ) → Fin p → ℚ
  minimize : ((Fin p → ℚ) → ℚ) → ((Fin p → ℚ) → Fin p → ℚ) →
      (Fin p → ℚ) → ℚ → ℚ → (Fin p → ℚ) × Bool
  inv : (Fin p → Fin p → ℚ) → Fin p → Fin p → ℚ

/-- checkpoint lines 73-82: the initial `beta`.  Full-rank branch: least
squares on `np.log((counts/cnv)/size_factors + 0.1)`; otherwise the
intercept is set to the mean of `np.log((counts/cnv)/size_factors)` and
all other coefficients to zero. -/
def irls_beta_init (m p : ℕ) (o : IRLSOracle m p)
    (counts cnv size_factors : Fin m → ℚ) : Fin p → ℚ :=
  if o.rank_eq_num_vars then
    o.qr_solve (fun s => o.log ((counts s / cnv s) / size_factors s + 1/10))
  else
    fun j =>
      if j.val = 0 then
        sumFin m (fun s => o.log ((counts s / cnv s) / size_factors s)) / m
      else 0

/-- checkpoint line 88 (and 103, 108, 128, 139, 143): the fitted mean,
`np.maximum(cnv * size_factors * np.exp(X @ beta), min_mu)` at `beta`. -/
def irls_mu (m p : ℕ) (o : IRLSOracle m p)
    (X : Fin m → Fin p → ℚ) (cnv size_factors : Fin m → ℚ)
    (min_mu : ℚ) (beta : Fin p → ℚ) : Fin m → ℚ :=
  fun s =>
    np_maximum (cnv s * size_factors s * o.exp (sumFin p (fun j => X s j * beta j)))
      min_mu

/-- checkpoint lines 101-105: the closure `f` handed to
`scipy.optimize.minimize` — penalized NB negative log-likelihood,
`nb_nll(counts, mu_, disp) + 0.5 * (ridge_factor @ beta**2).sum()` with
`ridge_factor = diag(1e-6)`. -/
def irls_f (m p : ℕ) (o : IRLSOracle m p)
    (X : Fin m → Fin p → ℚ) (counts cnv size_factors : Fin m → ℚ)
    (disp min_mu : ℚ) : (Fin p → ℚ) → ℚ :=
  fun beta =>
    o.nb_nll counts (irls_mu m p o X cnv size_factors min_mu beta) disp +
      1/2 * sumFin p (fun j => 1/1000000 * beta j ^ 2)

/-- checkpoint lines 107-114: the gradient closure `df` handed to
`scipy.optimize.minimize`. -/
def irls_df (m p : ℕ) (o : IRLSOracle m p)
    (X : Fin m → Fin p → ℚ) (counts cnv size_factors : Fin m → ℚ)
    (disp min_mu : ℚ) : (Fin p → ℚ) → Fin p → ℚ :=
  fun beta =>
    let mu_ := irls_mu m p o X cnv size_factors min_mu beta
    fun j =>
      -sumFin m (fun s => X s j * counts s) +
        sumFin m
          (fun s => (1 / disp + counts s) * mu_ s / (1 / disp + mu_ s) * X s j) +
        1/1000000 * beta j

/-- Result of the `while` loop of `irls_glm` (checkpoint lines 92-149).
`gridFallback` marks the branch at lines 131-138 where `grid_fit_beta` is
invoked: the call site passes `(counts, size_factors, cnv, X, disp)` into
the parameters `(counts, size_factors, design_matrix, disp, cnv)` of
`grid_fit_beta` (checkpoint lines 209-219), so inside `grid_fit_beta` the
scalar dispersion is bound to `cnv` and the first evaluation of its `loss`
closure executes `cnv[:, None]` on that scalar, raising `TypeError`;
nothing after the invocation (lines 139 onward) executes. -/
inductive IRLSLoopRes (m p : ℕ) where
  | ok (beta : Fin p → ℚ) (mu : Fin m → ℚ) (converged : Bool)
  | gridFallback

/-- checkpoint lines 92-149: the IRLS `while dev_ratio > beta_tol` loop.
`fuel` is a structural-recursion bound; it is always instantiated with
`maxiter + 1`, which the `i' ≥ maxiter` break makes sufficient, so the
`fuel = 0` base case (returning the carried state) is never reached. -/
def irls_loop (m p : ℕ) (o : IRLSOracle m p)
    (X : Fin m → Fin p → ℚ) (counts cnv size_factors : Fin m → ℚ)
    (disp min_mu beta_tol min_beta max_beta : ℚ) (maxiter : ℕ)
    (beta_init : Fin p → ℚ) :
    ℕ → (Fin p → ℚ) → (Fin m → ℚ) → ℚ → ℚ → ℕ → IRLSLoopRes m p
  | 0, beta, mu, _, _, _ => .ok beta mu true
  | fuel + 1, beta, mu, dev, dev_ratio, i =>
    if beta_tol < dev_ratio then
      let W := fun s => mu s / (1 + mu s * disp)
      let z := fun s =>
        o.log ((mu s / cnv s) / size_factors s) + (counts s - mu s) / mu s
      let Hmat := fun a b =>
        sumFin m (fun s => X s a * W s * X s b) +
          (if a = b then 1/1000000 else 0)
      let rhs := fun a => sumFin m (fun s => X s a * (W s * z s))
      let beta_hat := o.solve_pos Hmat rhs
      let i' := i + 1
      if anyFin p (fun a => decide (max_beta < np_abs (beta_hat a))) || decide (maxiter ≤ i') then
        -- lines 99-140: divergence fallback to the quasi-Newton optimizer
        let res := o.minimize
          (irls_f m p o X counts cnv size_factors disp min_mu)
          (irls_df m p o X counts cnv size_factors disp min_mu)
          beta_init min_beta max_beta
        let beta' := res.1
        let mu' := irls_mu m p o X cnv size_factors min_mu beta'
        if !res.2 && decide (p ≤ 2) then .gridFallback
        else .ok beta' mu' res.2
      else
        let beta' := beta_hat
        let mu' := irls_mu m p o X cnv size_factors min_mu beta'
        let dev' := -2 * o.nb_nll counts mu' disp
        let dev_ratio' := np_abs (dev' - dev) / (np_abs dev' + 1/10)
        irls_loop m p o X counts cnv size_factors disp min_mu beta_tol
          min_beta max_beta maxiter beta_init fuel beta' mu' dev' dev_ratio' i'
    else .ok beta mu true

/-- What `irls_glm` does on a given input: either it returns the 4-tuple
`(beta, mu, H, converged)` of checkpoint line 160, or it dies inside the
`grid_fit_beta` invocation (see `IRLSLoopRes.gridFallback`). -/
inductive IRLSReturn (m p : ℕ) where
  | result (beta : Fin p → ℚ) (mu : Fin m → ℚ) (H : Fin m → ℚ) (converged : Bool)
  | gridFallback

/-- checkpoint lines 53-160: `irls_glm`.  Defaults at the call sites in
dds.py: `min_mu` and `beta_tol` from the object, `min_beta = -30`,
`max_beta = 30`, `maxiter = 250`. -/
def irls_glm (m p : ℕ) (o : IRLSOracle m p)
    (counts size_factors : Fin m → ℚ) (design_matrix : Fin m → Fin p → ℚ)
    (cnv : Fin m → ℚ) (disp : ℚ)
    (min_mu : ℚ := 1/2) (beta_tol : ℚ := 1/100000000)
    (min_beta : ℚ := -30) (max_beta : ℚ := 30) (maxiter : ℕ := 250) :
    IRLSReturn m p :=
  let X := design_matrix
  let beta_init := irls_beta_init m p o counts cnv size_factors
  -- lines 84-90: dev = 1000.0, dev_ratio = 1.0, initial mu, i = 0
  let mu0 := irls_mu m p o X cnv size_factors min_mu beta_init
  match irls_loop m p o X counts cnv size_factors disp min_mu beta_tol
      min_beta max_beta maxiter beta_init (maxiter + 1) beta_init mu0
      1000 1 0 with
  | .gridFallback => .gridFallback
  | .ok beta mu converged =>
    -- lines 151-160: leverage diagonal and return
    let W := fun s => mu s / (1 + mu s * disp)
    let XtWX := fun a b =>
      sumFin m (fun s => X s a * W s * X s b) + (if a = b then 1/1000000 else 0)
    let H := fun s =>
      o.sqrt (W s) *
        sumFin p (fun a => sumFin p (fun b => X s a * o.inv XtWX a b * X s b)) *
        o.sqrt (W s)
    .result beta mu H converged

/-- `true` iff the run of `irls_glm` invoked the `grid_fit_beta`
fallback. -/
def IRLSReturn.hitGridFallback {m p : ℕ} : IRLSReturn m p → Bool
  | .gridFallback => true
  | .result _ _ _ _ => false

/-- The returned `mu` of an `irls_glm` run (zero vector when the run
died in the grid fallback). -/
def IRLSReturn.muD {m p : ℕ} : IRLSReturn m p → Fin m → ℚ
  | .result _ mu _ _ => mu
  | .gridFallback => fun _ => 0

/-- The returned `beta` of an `irls_glm` run. -/
def IRLSReturn.betaD {m p : ℕ} : IRLSReturn m p → Fin p → ℚ
  | .result beta _ _ _ => beta
  | .gridFallback => fun _ => 0

/-- The returned `H` of an `irls_glm` run. -/
def IRLSReturn.HD {m p : ℕ} : IRLSReturn m p → Fin m → ℚ
  | .result _ _ H _ => H
  | .gridFallback => fun _ => 0

/-- The returned convergence flag of an `irls_glm` run. -/
def IRLSReturn.convD {m p : ℕ} : IRLSReturn m p → Bool
  | .result _ _ _ c => c
  | .gridFallback => false

/-!
### dds.py, `deconveil_fit._replace_outliers`, lines 998-1068

Inputs as the method reads them:
  * `counts` — `self.data["counts"]` (an integer matrix at this point);
  * `cooks` — `self.layers["cooks"]`, full-size with NaN at all-zero genes;
  * `replaceable` — the per-sample boolean result of the collaborator
    `n_or_more_replicates(design_matrix, min_replicates)` (line 1008);
  * `size_factors`;
  * `trimmed_mean` — the collaborator `pydeseq2.utils.trimmed_mean(·,
    trim=0.2, axis=0)`, as a function of one normalized column;
  * `cooks_cutoff` — `scipy.stats.f.ppf(0.99, num_vars, num_samples -
    num_vars)` (line 1021).

The method builds `self.counts_to_refit` as a fresh DataFrame holding the
columns of `counts` at `replaced` genes (line 1028; `self.data["counts"]`
itself is NOT written).  The model below carries `counts_to_refit` as a
full-width matrix whose columns outside `replaced` simply keep their
original values (those columns are not part of the source DataFrame).

Line 1068 is a row-wise `.loc[mask] = ...` assignment: every row of
`counts_to_refit` selected by `replace_mask.any(axis=1)` is overwritten
whole with the corresponding row of `replacement_counts`.
-/

/-- Output of `_replace_outliers`: the `replaced` gene mask
(`varm["replaced"]`) and the `counts_to_refit` matrix. -/
structure ReplaceOutliersResult (m n : ℕ) where
  replaced : Fin n → Bool
  counts_to_refit : Fin m → Fin n → ℤ

/-- dds.py lines 998-1068: `_replace_outliers` (see section comment for
the argument conventions). -/
def _replace_outliers (m n : ℕ) (counts : Fin m → Fin n → ℤ)
    (cooks : Fin m → Fin n → Option ℚ) (replaceable : Fin m → Bool)
    (size_factors : Fin m → ℚ) (trimmed_mean : (Fin m → ℚ) → ℚ)
    (cooks_cutoff : ℚ) : ReplaceOutliersResult m n :=
  if !anyFin m replaceable then
    -- lines 1012-1018: no sample can be replaced
    { replaced := fun _ => false, counts_to_refit := counts }
  else
    -- lines 1021-1023
    let idx := fun (s : Fin m) (j : Fin n) => optGt (cooks s j) (some cooks_cutoff)
    let replaced := fun j => anyFin m (fun s => idx s j)
    if anyFin n replaced then
      -- lines 1028-1043: trimmed means of normalized counts, one per column
      let trim_base_mean := fun (j : Fin n) =>
        trimmed_mean (fun s => (counts s j : ℚ) / size_factors s)
      -- lines 1045-1052: (trim_base_mean * size_factors).T.astype(int)
      let replacement_counts := fun (s : Fin m) (j : Fin n) =>
        np_astype_int (trim_base_mean j * size_factors s)
      -- line 1054: replace_mask = replaceable[:, None] & idx[:, replaced]
      let replace_mask := fun (s : Fin m) (j : Fin n) =>
        replaceable s && idx s j
      -- lines 1060-1068: overwrite whole rows selected by
      -- replace_mask.any(axis=1) (the `any` ranges over replaced columns)
      let row_selected := fun (s : Fin m) =>
        anyFin n (fun j => replaced j && replace_mask s j)
      { replaced := replaced
        counts_to_refit := fun s j =>
          if replaced j && row_selected s then replacement_counts s j
          else counts s j }
    else
      { replaced := replaced, counts_to_refit := counts }

/-!
### NaN placeholders for all-zero genes (claim C8)

dds.py line 509: `non_zero = ~(counts == 0).all(axis=0)`.  Each output
array is allocated NaN-filled at full size and written only at `non_zero`
positions: `_mu_hat` at lines 548-549, `genewise_dispersions` at lines
567-569, `MAP_dispersions` at lines 704-706, `LFC` at lines 758-770
(NaN-initialized DataFrame updated on the non-zero gene index), `cooks` at
lines 831-832.  The per-gene numeric fit results are abstracted as
full-indexed providers (`vals`, `lfc_vals`, ...): the source computes them
only for non-zero columns, and only those positions are read here.

The refit step (`refit` / `_refit_without_outliers`, lines 837-1171):
`replaced` comes from `_replace_outliers`; `new_all_zeroes` are the
replaced genes whose refit counts became all zero (line 1084);
`refitted = replaced ∧ ¬new_all_zeroes` (lines 1087-1089); new-all-zero
genes get `LFC = 0` (line 1096); merged arrays overwrite `refitted`
positions with the sub-run values (lines 1158-1166).
-/

/-- dds.py line 509: the non-zero-gene mask. -/
def non_zero_mask (m n : ℕ) (counts : Fin m → Fin n → ℤ) : Fin n → Bool :=
  fun j => !allFin m (fun s => counts s j == 0)

/-- NaN-filled full-size vector written only at masked positions
(`np.full(n, nan)` then `arr[mask] = vals`). -/
def scatter_vec (n : ℕ) (mask : Fin n → Bool) (vals : Fin n → ℚ) :
    Fin n → Option ℚ :=
  fun j => if mask j then some (vals j) else none

/-- NaN-filled full-size matrix written only at masked columns. -/
def scatter_mat (m n : ℕ) (mask : Fin n → Bool) (vals : Fin m → Fin n → ℚ) :
    Fin m → Fin n → Option ℚ :=
  fun s j => if mask j then some (vals s j) else none

/-- The NaN-initialized LFC table (genes × design columns), updated only
at non-zero gene rows (dds.py lines 758-770). -/
def scatter_rows (n q : ℕ) (mask : Fin n → Bool) (vals : Fin n → Fin q → ℚ) :
    Fin n → Fin q → Option ℚ :=
  fun j c => if mask j then some (vals j c) else none

/-- dds.py lines 1084-1089: genes replaced but still refittable after
outlier replacement. -/
def refitted_mask (m n : ℕ) (replaced : Fin n → Bool)
    (counts_to_refit : Fin m → Fin n → ℤ) : Fin n → Bool :=
  fun j => replaced j && !allFin m (fun s => counts_to_refit s j == 0)

/-- dds.py lines 1084-1092: replaced genes that became all-zero after
outlier replacement. -/
def new_all_zeroes_mask (m n : ℕ) (replaced : Fin n → Bool)
    (counts_to_refit : Fin m → Fin n → ℤ) : Fin n → Bool :=
  fun j => replaced j && allFin m (fun s => counts_to_refit s j == 0)

/-- dds.py lines 1158-1166: merge of a per-gene vector after refit
(`main[refitted] = sub[...]`). -/
def refit_merge_vec (n : ℕ) (refitted : Fin n → Bool)
    (orig : Fin n → Option ℚ) (sub : Fin n → ℚ) : Fin n → Option ℚ :=
  fun j => if refitted j then some (sub j) else orig j

/-- dds.py lines 1092-1096 and 1159: the LFC table after refit — rows of
new-all-zero genes are set to 0, rows of refitted genes take the sub-run
values, all other rows keep their previous (possibly NaN) values. -/
def refit_merge_LFC (n p : ℕ) (new_all_zeroes refitted : Fin n → Bool)
    (orig : Fin n → Fin p → Option ℚ) (sub : Fin n → Fin p → ℚ) :
    Fin n → Fin p → Option ℚ :=
  fun j c =>
    if new_all_zeroes j then some 0
    else if refitted j then some (sub j c)
    else orig j c

/-!
### The `deconveil_fit` object state (dds.py)

Fields carried by the model, with their dds.py counterparts.  Dimensions:
`m` samples, `n` genes, `knz` non-zero genes, `p` design columns.

  * `data_counts`, `data_cnv` — `self.data["counts"]`, `self.data["cnv"]`;
  * `design_matrix` — `self.obsm["design_matrix"].values`;
  * `size_factors` — `self.obsm["size_factors"]`;
  * `non_zero_idx : Fin knz → Fin n` — `self.non_zero_idx` (line 510);
  * `inv_idx : Fin n → Option (Fin knz)` — the inverse of `non_zero_idx`:
    the position of a gene inside the compacted non-zero arrays, `none`
    for all-zero genes; numpy boolean-mask scatter
    `full_array[self.varm["non_zero"]] = compact_values` is modelled as
    writing `compact_values (inv_idx j)` at each `j` with `inv_idx j ≠
    none`;
  * `gene_index : Fin knz → Fin n` — the index built at dds.py lines
    648-650 (`non_zero_genes.map(position_map)`, i.e. positions
    `0..knz-1` used directly as positions into the full-length arrays);
  * `min_disp`, `min_mu`, `beta_tol` — the constructor thresholds;
  * `max_disp` — `self.max_disp`, i.e. already
    `np.maximum(max_disp, n_obs)` (line 192);
  * `mu_hat` — `self.layers["_mu_hat"]` (NaN outside non-zero genes);
  * `genewise_dispersions`, `fitted_dispersions` — the same-named
    `varm` arrays (NaN outside non-zero genes);
  * `squared_logres`, `prior_disp_var` — `self.uns` entries, `none`
    standing for "key not present";
  * the remaining `Option`-wrapped fields are outputs whose `varm` /
    `obsm` keys may not exist yet (`none` = key absent).
-/

/-- The slice of `deconveil_fit`'s mutable state read or written by
`fit_dispersion_prior`, `fit_MAP_dispersions` and `fit_LFC`. -/
structure DState (m n knz p : ℕ) where
  data_counts : Fin m → Fin n → ℚ
  data_cnv : Fin m → Fin n → ℚ
  design_matrix : Fin m → Fin p → ℚ
  size_factors : Fin m → ℚ
  non_zero_idx : Fin knz → Fin n
  inv_idx : Fin n → Option (Fin knz)
  gene_index : Fin knz → Fin n
  min_disp : ℚ
  max_disp : ℚ
  min_mu : ℚ
  beta_tol : ℚ
  mu_hat : Fin m → Fin n → Option ℚ
  genewise_dispersions : Fin n → Option ℚ
  fitted_dispersions : Fin n → Option ℚ
  squared_logres : Option ℚ
  prior_disp_var : Option ℚ
  MAP_dispersions : Option (Fin n → Option ℚ)
  MAP_converged : Option (Fin n → Option Bool)
  dispersions : Option (Fin n → Option ℚ)
  outlier_genes : Option (Fin n → Bool)
  LFC : Option (Fin n → Fin p → Option ℚ)
  mu_LFC : Option (Fin m → Fin knz → ℚ)
  hat_diagonals : Option (Fin m → Fin knz → ℚ)
  LFC_converged : Option (Fin n → Option Bool)

/-- External collaborators consumed by the `deconveil_fit` methods:

  * `alpha_mle` — `self.inference.alpha_mle(counts[:, nz], design, mu[:,
    nz], alpha_hat[nz], min_disp, max_disp, prior_disp_var, cr_reg=True,
    prior_reg=True)` (the two flags are the constants of the call at
    dds.py lines 688-698), returning per-gene dispersions and
    convergence flags;
  * `irls_glm` — the batched `self.inference.irls_glm(counts[:, nz],
    cnv[:, nz], size_factors, design, disp[nz], min_mu, beta_tol)`
    returning `(lfcs, mu, hat_diagonals, converged)`;
  * `mean_absolute_deviation` — `pydeseq2.utils.mean_absolute_deviation`;
  * `polygamma1` — `scipy.special.polygamma(1, ·)`;
  * `log`, `sqrt` — numpy elementwise. -/
structure InferenceOracle (m n knz p : ℕ) where
  alpha_mle : (Fin m → Fin knz → ℚ) → (Fin m → Fin p → ℚ) →
      (Fin m → Fin knz → Option ℚ) → (Fin knz → Option ℚ) → ℚ → ℚ → ℚ →
      (Fin knz → ℚ) × (Fin knz → Bool)
  irls_glm : (Fin m → Fin knz → ℚ) → (Fin m → Fin knz → ℚ) →
      (Fin m → ℚ) → (Fin m → Fin p → ℚ) → (Fin knz → Option ℚ) → ℚ → ℚ →
      (Fin knz → Fin p → ℚ) × (Fin m → Fin knz → ℚ) ×
        (Fin m → Fin knz → ℚ) × (Fin knz → Bool)
  mean_absolute_deviation : List ℚ → ℚ
  polygamma1 : ℚ → ℚ
  log : ℚ → ℚ
  sqrt : ℚ → ℚ

/-- NaN-propagating subtraction of possibly-NaN values. -/
def optSub (a b : Option ℚ) : Option ℚ :=
  match a, b with
  | some x, some y => some (x - y)
  | _, _ => none

/-- dds.py lines 620-669: `fit_dispersion_prior`.  Modelled at the point
in the pipeline where `fitted_dispersions` is already present (its own
back-fill guard at lines 630-631 is then a no-op).  Residuals are
`log(genewise[gene_index]) - log(fitted[gene_index])` (lines 652-654);
the MAD is taken over residuals of genes with
`genewise[gene_index] >= 100 * min_disp` (lines 658-664); the prior
variance is `max(squared_logres - polygamma(1, (m - p)/2), 0.25)`
(lines 666-669). -/
def fit_dispersion_prior (m n knz p : ℕ) (O : InferenceOracle m n knz p)
    (s : DState m n knz p) : DState m n knz p :=
  let residuals : List ℚ :=
    (List.finRange knz).filterMap (fun j' =>
      if optGe (s.genewise_dispersions (s.gene_index j')) (100 * s.min_disp) then
        optSub (optLog O.log (s.genewise_dispersions (s.gene_index j')))
          (optLog O.log (s.fitted_dispersions (s.gene_index j')))
      else none)
  let sqres := O.mean_absolute_deviation residuals ^ 2
  { s with
    squared_logres := some sqres
    prior_disp_var :=
      some (np_maximum (sqres - O.polygamma1 (((m : ℚ) - p) / 2)) (1/4)) }

/-- dds.py lines 671-720: `fit_MAP_dispersions`.  The guard at lines
678-679 back-fills the prior when `"prior_disp_var" not in self.uns`;
then `alpha_mle` is called on the non-zero slices (lines 688-698), its
output is clipped and scattered into NaN-filled arrays (lines 704-710),
and the shrinkage outlier filter fills `dispersions` and
`_outlier_genes` (lines 713-720). -/
def fit_MAP_dispersions (m n knz p : ℕ) (O : InferenceOracle m n knz p)
    (s : DState m n knz p) : DState m n knz p :=
  let s' := if s.prior_disp_var.isNone then fit_dispersion_prior m n knz p O s else s
  let counts_nz := fun (i : Fin m) (j' : Fin knz) => s'.data_counts i (s'.non_zero_idx j')
  let mu_nz := fun (i : Fin m) (j' : Fin knz) => s'.mu_hat i (s'.non_zero_idx j')
  let alpha_hat_nz := fun (j' : Fin knz) => s'.fitted_dispersions (s'.non_zero_idx j')
  let res := O.alpha_mle counts_nz s'.design_matrix mu_nz alpha_hat_nz
    s'.min_disp s'.max_disp (s'.prior_disp_var.getD 0)
  let MAP : Fin n → Option ℚ := fun j =>
    match s'.inv_idx j with
    | some j' => some (np_clip (res.1 j') s'.min_disp s'.max_disp)
    | none => none
  let conv : Fin n → Option Bool := fun j =>
    match s'.inv_idx j with
    | some j' => some (res.2 j')
    | none => none
  let outlier := outlier_genes_mask O.log O.sqrt n s'.genewise_dispersions
    s'.fitted_dispersions (s'.squared_logres.getD 0)
  { s' with
    MAP_dispersions := some MAP
    MAP_converged := some conv
    dispersions := some (dispersions_after_filter n outlier MAP s'.genewise_dispersions)
    outlier_genes := some outlier }

/-- dds.py lines 737-739 (inside `fit_LFC`): the local numpy rebinding
`cnv = cnv / 2; cnv = cnv + 0.1`.  Both operators allocate fresh arrays,
so `self.data["cnv"]` is only read. -/
def fit_LFC_cnv_local (m n knz p : ℕ) (s : DState m n knz p) :
    Fin m → Fin n → ℚ :=
  fun i j => s.data_cnv i j / 2 + 1/10

/-- dds.py line 746: the `cnv` argument handed to `inference.irls_glm`
by `fit_LFC` — the rescaled matrix sliced to non-zero genes. -/
def fit_LFC_cnv_arg (m n knz p : ℕ) (s : DState m n knz p) :
    Fin m → Fin knz → ℚ :=
  fun i j' => fit_LFC_cnv_local m n knz p s i (s.non_zero_idx j')

/-- dds.py lines 522 and 538: the `cnv` argument handed to
`inference.irls_glm` by `fit_genewise_dispersions` — the stored CNV
matrix, unrescaled, sliced to non-zero genes. -/
def fit_genewise_cnv_arg (m n knz p : ℕ) (s : DState m n knz p) :
    Fin m → Fin knz → ℚ :=
  fun i j' => s.data_cnv i (s.non_zero_idx j')

/-- dds.py lines 525-528: number of distinct rows of the design matrix
(`len(self.obsm["design_matrix"].value_counts())`). -/
def distinct_row_count (m p : ℕ) (X : Fin m → Fin p → ℚ) : ℕ :=
  (((List.finRange m).map (fun i => (List.finRange p).map (fun j => X i j))).dedup).length

/-- dds.py lines 525-544: `fit_genewise_dispersions` calls
`inference.irls_glm` exactly when the distinct-row count of the design
differs from its column count (otherwise `lin_reg_mu` is used, with no
CNV argument at all). -/
def fit_genewise_uses_irls (m p : ℕ) (X : Fin m → Fin p → ℚ) : Bool :=
  !(distinct_row_count m p X == p)

/-- dds.py lines 723-776: `fit_LFC`.  The guard at lines 731-732
back-fills MAP dispersions when `"dispersions" not in self.varm`; the
local CNV rescaling is `fit_LFC_cnv_local` / `fit_LFC_cnv_arg`; the
solver outputs are scattered into the NaN-initialized `LFC` table and
the `_LFC_converged` array, and stored as `_mu_LFC` / `_hat_diagonals`
(lines 758-776). -/
def fit_LFC (m n knz p : ℕ) (O : InferenceOracle m n knz p)
    (s : DState m n knz p) : DState m n knz p :=
  let s' := if s.dispersions.isNone then fit_MAP_dispersions m n knz p O s else s
  let counts_nz := fun (i : Fin m) (j' : Fin knz) => s'.data_counts i (s'.non_zero_idx j')
  let disp_nz := fun (j' : Fin knz) =>
    (s'.dispersions.getD (fun _ => none)) (s'.non_zero_idx j')
  let r := O.irls_glm counts_nz (fit_LFC_cnv_arg m n knz p s') s'.size_factors
    s'.design_matrix disp_nz s'.min_mu s'.beta_tol
  { s' with
    LFC := some (fun j c =>
      match s'.inv_idx j with
      | some j' => some (r.1 j' c)
      | none => none)
    mu_LFC := some r.2.1
    hat_diagonals := some r.2.2.1
    LFC_converged := some (fun j =>
      match s'.inv_idx j with
      | some j' => some (r.2.2.2 j')
      | none => none) }

/-!
### Helper lemmas
-/

theorem anyFin_eq_true_iff {n : ℕ} {f : Fin n → Bool} :
    anyFin n f = true ↔ ∃ i, f i = true := by
  unfold anyFin
  rw [List.any_eq_true]
  constructor
  · rintro ⟨i, _, hi⟩
    exact ⟨i, hi⟩
  · rintro ⟨i, hi⟩
    exact ⟨i, List.mem_finRange i, hi⟩

theorem allFin_eq_true_iff {n : ℕ} {f : Fin n → Bool} :
    allFin n f = true ↔ ∀ i, f i = true := by
  unfold allFin
  rw [List.all_eq_true]
  constructor
  · intro h i
    exact h i (List.mem_finRange i)
  · intro h i _
    exact h i

theorem le_np_maximum_right (a b : ℚ) : b ≤ np_maximum a b := by
  unfold np_maximum
  by_cases h : b ≤ a
  · rw [if_pos h]; exact h
  · rw [if_neg h]

theorem le_np_maximum_left (a b : ℚ) : a ≤ np_maximum a b := by
  unfold np_maximum
  by_cases h : b ≤ a
  · rw [if_pos h]
  · rw [if_neg h]; exact le_of_not_le h

theorem np_minimum_le_right (a b : ℚ) : np_minimum a b ≤ b := by
  unfold np_minimum
  by_cases h : a ≤ b
  · rw [if_pos h]; exact h
  · rw [if_neg h]

theorem le_np_minimum {a b c : ℚ} (h1 : c ≤ a) (h2 : c ≤ b) :
    c ≤ np_minimum a b := by
  unfold np_minimum
  by_cases h : a ≤ b
  · rw [if_pos h]; exact h1
  · rw [if_neg h]; exact h2

theorem clipped_dispersion_mem {min_disp max_disp : ℚ} {n_obs : ℕ}
    (h : min_disp ≤ self_max_disp max_disp n_obs) (raw : ℚ) :
    min_disp ≤ clipped_dispersion min_disp max_disp n_obs raw ∧
      clipped_dispersion min_disp max_disp n_obs raw ≤ self_max_disp max_disp n_obs := by
  unfold clipped_dispersion np_clip
  exact ⟨le_np_minimum (le_np_maximum_right _ _) h, np_minimum_le_right _ _⟩

/-!
### Claim theorems
-/

/-- C2: the constructor's shape check (dds.py lines 158-159) joins the two
dimension comparisons with `and`, so a counts matrix of shape (2, 3) and a
CNV matrix of shape (2, 4) — unequal shapes, differing only in the gene
dimension — do NOT raise: no fatal error occurs before fitting. -/
theorem C2_shape_check_single_dim_mismatch_not_fatal :
    shape_mismatch_raises (2, 3) (2, 4) = false ∧ ((2, 3) : ℕ × ℕ) ≠ (2, 4) := by
  constructor
  · rfl
  · decide

/-- C5 (amended): every emitted dispersion — genewise, MAP,
method-of-moments (all written through
`np.clip(·, self.min_disp, self.max_disp)`), and the final `dispersions`
array selecting per gene between clipped MAP and clipped genewise values —
lies in `[min_disp, max(max_disp, n_obs)]`, the interval actually enforced
by dds.py line 192, whenever that interval is non-empty. -/
theorem C5_emitted_dispersions_in_effective_interval
    (min_disp max_disp : ℚ) (n_obs : ℕ)
    (h : min_disp ≤ self_max_disp max_disp n_obs) :
    (∀ raw : ℚ,
      min_disp ≤ clipped_dispersion min_disp max_disp n_obs raw ∧
        clipped_dispersion min_disp max_disp n_obs raw ≤ self_max_disp max_disp n_obs) ∧
    (∀ (n : ℕ) (outlier : Fin n → Bool) (MAPraw gwraw : Fin n → ℚ) (j : Fin n) (x : ℚ),
      dispersions_after_filter n outlier
        (fun j2 => some (clipped_dispersion min_disp max_disp n_obs (MAPraw j2)))
        (fun j2 => some (clipped_dispersion min_disp max_disp n_obs (gwraw j2))) j = some x →
      min_disp ≤ x ∧ x ≤ self_max_disp max_disp n_obs) := by
  constructor
  · exact clipped_dispersion_mem h
  · intro n outlier MAPraw gwraw j x hx
    unfold dispersions_after_filter at hx
    by_cases hj : outlier j = true
    · rw [if_pos hj] at hx
      obtain rfl : clipped_dispersion min_disp max_disp n_obs (gwraw j) = x :=
        Option.some.inj hx
      exact clipped_dispersion_mem h _
    · rw [if_neg hj] at hx
      obtain rfl : clipped_dispersion min_disp max_disp n_obs (MAPraw j) = x :=
        Option.some.inj hx
      exact clipped_dispersion_mem h _

/-- Witness for C5: min_disp = 1e-8, constructor max_disp = 10, 50
samples; the raw optimizer value 40 is emitted inside the effective
interval `[1e-8, max(10, 50)]`. -/
theorem C5_emitted_dispersions_witness :
    (1/100000000 : ℚ) ≤ clipped_dispersion (1/100000000) 10 50 40 ∧
      clipped_dispersion (1/100000000) 10 50 40 ≤ self_max_disp 10 50 :=
  (C5_emitted_dispersions_in_effective_interval (1/100000000) 10 50
    (by norm_num [self_max_disp, np_maximum])).1 40

/-- Counterexample for C5 as stated: with constructor arguments
`min_disp = 1e-8`, `max_disp = 10` and 50 samples, the clip at dds.py
lines 567-570 uses `self.max_disp = max(10, 50) = 50`, so a raw value of
40 is emitted as 40, outside the `[min_disp, max_disp]` interval given at
construction. -/
theorem C5_emitted_dispersions_counterexample :
    clipped_dispersion (1/100000000) 10 50 40 = 40 ∧ ¬((40 : ℚ) ≤ 10) := by
  constructor
  · norm_num [clipped_dispersion, np_clip, np_minimum, np_maximum, self_max_disp]
  · norm_num

/-- C7: after `fit_MAP_dispersions`, a gene whose log genewise dispersion
exceeds `log(fitted) + 2*sqrt(squared_logres)` keeps its genewise
estimate in the final `dispersions` array, and any other gene with real
(non-NaN) genewise and fitted values keeps the MAP estimate
(dds.py lines 713-720). -/
theorem C7_dispersions_outlier_selection
    (log sqrt : ℚ → ℚ) (n : ℕ) (genewise fitted MAP : Fin n → Option ℚ)
    (squared_logres : ℚ) (j : Fin n) (g f : ℚ)
    (hg : genewise j = some g) (hf : fitted j = some f) :
    (log f + 2 * sqrt squared_logres < log g →
      dispersions_after_filter n
        (outlier_genes_mask log sqrt n genewise fitted squared_logres)
        MAP genewise j = genewise j) ∧
    (¬(log f + 2 * sqrt squared_logres < log g) →
      dispersions_after_filter n
        (outlier_genes_mask log sqrt n genewise fitted squared_logres)
        MAP genewise j = MAP j) := by
  have hmask : outlier_genes_mask log sqrt n genewise fitted squared_logres j =
      decide (log f + 2 * sqrt squared_logres < log g) := by
    unfold outlier_genes_mask
    rw [hg, hf]
    rfl
  unfold dispersions_after_filter
  rw [hmask]
  simp only [decide_eq_true_eq]
  constructor
  · intro hlt
    rw [if_pos hlt]
  · intro hge
    rw [if_neg hge]

/-- Witness for C7: with `log = sqrt = id`, genewise 10, fitted 1,
`squared_logres = 0` and MAP 5, the gene is an outlier (`1 + 0 < 10`) and
the final dispersion is the genewise estimate 10. -/
theorem C7_dispersions_outlier_selection_witness :
    dispersions_after_filter 1
      (outlier_genes_mask id id 1 (fun _ => some 10) (fun _ => some 1) 0)
      (fun _ => some 5) (fun _ => some 10) 0 = some 10 :=
  (C7_dispersions_outlier_selection id id 1 (fun _ => some 10) (fun _ => some 1)
    (fun _ => some 5) 0 0 10 1 rfl rfl).1 (by norm_num)

/-- C9: `fit_MAP_dispersions` is idempotent — it reads only state it does
not modify (counts, design, `_mu_hat`, `fitted_dispersions`,
`genewise_dispersions`, `_squared_logres`, `prior_disp_var`), so running
it a second time on its own output, with the same inference collaborators
and the prior variance unchanged, reproduces the state (in particular the
MAP dispersions) exactly. -/
theorem C9_fit_MAP_dispersions_idempotent
    (m n knz p : ℕ) (O : InferenceOracle m n knz p) (s : DState m n knz p) :
    fit_MAP_dispersions m n knz p O (fit_MAP_dispersions m n knz p O s) =
      fit_MAP_dispersions m n knz p O s := by
  obtain ⟨dc, dv, X, sf, nzi, ivi, gi, mnd, mxd, mnm, bt, mh, gw, fd, sq, pdv,
    md, mc, dsp, og, lf, ml, hd, lc⟩ := s
  cases pdv <;> rfl

/-- C10: `fit_LFC` leaves the stored input matrices untouched: the
`cnv/2 + 0.1` rescaling is a fresh local array (dds.py lines 737-739),
and neither `fit_LFC` nor the `fit_MAP_dispersions` back-fill it may
trigger writes `self.data`, so `data["counts"]` and `data["cnv"]` are
unchanged by the call. -/
theorem C10_fit_LFC_preserves_data
    (m n knz p : ℕ) (O : InferenceOracle m n knz p) (s : DState m n knz p) :
    (fit_LFC m n knz p O s).data_counts = s.data_counts ∧
      (fit_LFC m n knz p O s).data_cnv = s.data_cnv := by
  obtain ⟨dc, dv, X, sf, nzi, ivi, gi, mnd, mxd, mnm, bt, mh, gw, fd, sq, pdv,
    md, mc, dsp, og, lf, ml, hd, lc⟩ := s
  cases dsp <;> cases pdv <;> exact ⟨rfl, rfl⟩

theorem min_mu_le_irls_mu (m p : ℕ) (o : IRLSOracle m p)
    (X : Fin m → Fin p → ℚ) (cnv size_factors : Fin m → ℚ)
    (min_mu : ℚ) (beta : Fin p → ℚ) (s : Fin m) :
    min_mu ≤ irls_mu m p o X cnv size_factors min_mu beta s := by
  unfold irls_mu
  exact le_np_maximum_right _ _

theorem irls_loop_ok_mu_floored (m p : ℕ) (o : IRLSOracle m p)
    (X : Fin m → Fin p → ℚ) (counts cnv size_factors : Fin m → ℚ)
    (disp min_mu beta_tol min_beta max_beta : ℚ) (maxiter : ℕ)
    (beta_init : Fin p → ℚ) :
    ∀ (fuel : ℕ) (beta : Fin p → ℚ) (mu : Fin m → ℚ) (dev dev_ratio : ℚ) (i : ℕ),
      (∀ s, min_mu ≤ mu s) →
      ∀ (b : Fin p → ℚ) (mu' : Fin m → ℚ) (c : Bool),
        irls_loop m p o X counts cnv size_factors disp min_mu beta_tol
          min_beta max_beta maxiter beta_init fuel beta mu dev dev_ratio i =
          .ok b mu' c →
        ∀ s, min_mu ≤ mu' s := by
  intro fuel
  induction fuel with
  | zero =>
    intro beta mu dev dr i hmu b mu' c h s
    simp only [irls_loop] at h
    injection h with h1 h2 h3
    rw [← h2]
    exact hmu s
  | succ fuel ih =>
    intro beta mu dev dr i hmu b mu' c h s
    simp only [irls_loop] at h
    split at h
    · split at h
      · split at h
        · exact IRLSLoopRes.noConfusion h
        · injection h with e1 e2 e3
          rw [← e2]
          exact min_mu_le_irls_mu m p o X cnv size_factors min_mu _ s
      · exact ih _ _ _ _ _
          (fun s2 => min_mu_le_irls_mu m p o X cnv size_factors min_mu _ s2)
          b mu' c h s
    · injection h with e1 e2 e3
      rw [← e2]
      exact hmu s

theorem irls_loop_gridFallback_cond (m p : ℕ) (o : IRLSOracle m p)
    (X : Fin m → Fin p → ℚ) (counts cnv size_factors : Fin m → ℚ)
    (disp min_mu beta_tol min_beta max_beta : ℚ) (maxiter : ℕ)
    (beta_init : Fin p → ℚ) :
    ∀ (fuel : ℕ) (beta : Fin p → ℚ) (mu : Fin m → ℚ) (dev dev_ratio : ℚ) (i : ℕ),
      irls_loop m p o X counts cnv size_factors disp min_mu beta_tol
        min_beta max_beta maxiter beta_init fuel beta mu dev dev_ratio i =
        .gridFallback →
      (o.minimize (irls_f m p o X counts cnv size_factors disp min_mu)
          (irls_df m p o X counts cnv size_factors disp min_mu)
          beta_init min_beta max_beta).2 = false ∧ p ≤ 2 := by
  intro fuel
  induction fuel with
  | zero =>
    intro beta mu dev dr i h
    simp only [irls_loop] at h
    exact IRLSLoopRes.noConfusion h
  | succ fuel ih =>
    intro beta mu dev dr i h
    simp only [irls_loop] at h
    split at h
    · split at h
      · split at h
        · rename_i h3
          rw [Bool.and_eq_true, Bool.not_eq_true', decide_eq_true_eq] at h3
          exact h3
        · exact IRLSLoopRes.noConfusion h
      · exact ih _ _ _ _ _ h
    · exact IRLSLoopRes.noConfusion h

/-- C3: contrary to the claim (and to the stale comment at checkpoint
lines 157-158), `irls_glm` never returns a `mu` entry below `min_mu`:
every assignment to `mu` — the initialization at line 88, the
quasi-Newton fallback at line 128 and the loop update at line 143 — goes
through `np.maximum(..., min_mu)` and no unthresholded recomputation
precedes the `return` at line 160. -/
theorem C3_irls_glm_mu_floored (m p : ℕ) (o : IRLSOracle m p)
    (counts size_factors : Fin m → ℚ) (design_matrix : Fin m → Fin p → ℚ)
    (cnv : Fin m → ℚ) (disp min_mu beta_tol min_beta max_beta : ℚ)
    (maxiter : ℕ) (b : Fin p → ℚ) (mu : Fin m → ℚ) (H : Fin m → ℚ) (c : Bool)
    (h : irls_glm m p o counts size_factors design_matrix cnv disp min_mu
      beta_tol min_beta max_beta maxiter = .result b mu H c) :
    ∀ s, min_mu ≤ mu s := by
  intro s
  simp only [irls_glm] at h
  split at h
  · exact IRLSReturn.noConfusion h
  · rename_i beta' mu' conv' heq
    injection h with e1 e2 e3 e4
    rw [← e2]
    exact irls_loop_ok_mu_floored m p o design_matrix counts cnv size_factors
      disp min_mu beta_tol min_beta max_beta maxiter _ _ _ _ _ _ _
      (fun s2 => min_mu_le_irls_mu m p o design_matrix cnv size_factors min_mu _ s2)
      beta' mu' conv' heq s

/-- A concrete oracle under which `irls_glm` exits its loop immediately
(used to witness C3). -/
def oC3 : IRLSOracle 1 1 where
  exp := fun _ => 0
  log := fun _ => 0
  sqrt := fun _ => 0
  nb_nll := fun _ _ _ => 0
  rank_eq_num_vars := true
  qr_solve := fun _ _ => 0
  solve_pos := fun _ _ _ => 0
  minimize := fun _ _ _ _ _ => (fun _ => 0, true)
  inv := fun _ _ _ => 0

/-- Witness for C3: a concrete single-sample, intercept-only run
(`beta_tol = 2`, so the loop exits at once) whose returned `mu` entry is
at least `min_mu = 1/2`. -/
theorem C3_irls_glm_mu_floored_witness :
    (1/2 : ℚ) ≤ (irls_glm 1 1 oC3 (fun _ => 3) (fun _ => 1) (fun _ _ => 1)
      (fun _ => 1) 1 (1/2) 2 (-30) 30 250).muD 0 :=
  C3_irls_glm_mu_floored 1 1 oC3 (fun _ => 3) (fun _ => 1) (fun _ _ => 1)
    (fun _ => 1) 1 (1/2) 2 (-30) 30 250
    ((irls_glm 1 1 oC3 (fun _ => 3) (fun _ => 1) (fun _ _ => 1)
      (fun _ => 1) 1 (1/2) 2 (-30) 30 250).betaD)
    ((irls_glm 1 1 oC3 (fun _ => 3) (fun _ => 1) (fun _ _ => 1)
      (fun _ => 1) 1 (1/2) 2 (-30) 30 250).muD)
    ((irls_glm 1 1 oC3 (fun _ => 3) (fun _ => 1) (fun _ _ => 1)
      (fun _ => 1) 1 (1/2) 2 (-30) 30 250).HD)
    ((irls_glm 1 1 oC3 (fun _ => 3) (fun _ => 1) (fun _ _ => 1)
      (fun _ => 1) 1 (1/2) 2 (-30) 30 250).convD)
    rfl 0

/-- C6 (amended): the `grid_fit_beta` fallback is invoked exactly under
`not res.success and num_vars <= 2` (checkpoint line 131) — so whenever
it is invoked, the quasi-Newton minimize call has failed AND the design
has at most 2 columns (not exactly 2: one column also triggers it). -/
theorem C6_grid_fallback_trigger (m p : ℕ) (o : IRLSOracle m p)
    (counts size_factors : Fin m → ℚ) (design_matrix : Fin m → Fin p → ℚ)
    (cnv : Fin m → ℚ) (disp min_mu beta_tol min_beta max_beta : ℚ)
    (maxiter : ℕ)
    (h : irls_glm m p o counts size_factors design_matrix cnv disp min_mu
      beta_tol min_beta max_beta maxiter = .gridFallback) :
    (o.minimize (irls_f m p o design_matrix counts cnv size_factors disp min_mu)
        (irls_df m p o design_matrix counts cnv size_factors disp min_mu)
        (irls_beta_init m p o counts cnv size_factors) min_beta max_beta).2 =
      false ∧ p ≤ 2 := by
  simp only [irls_glm] at h
  split at h
  · rename_i heq
    exact irls_loop_gridFallback_cond m p o design_matrix counts cnv size_factors
      disp min_mu beta_tol min_beta max_beta maxiter _ _ _ _ _ _ _ heq
  · exact IRLSReturn.noConfusion h

/-- A concrete oracle whose quasi-Newton minimize reports failure (used
for C6: the IRLS loop hits `i >= maxiter` at once with `maxiter = 1`,
falls back to minimize, which fails, and `grid_fit_beta` is invoked on a
ONE-column design). -/
def oC6 : IRLSOracle 1 1 where
  exp := fun _ => 0
  log := fun _ => 0
  sqrt := fun _ => 0
  nb_nll := fun _ _ _ => 0
  rank_eq_num_vars := true
  qr_solve := fun _ _ => 0
  solve_pos := fun _ _ _ => 0
  minimize := fun _ _ _ _ _ => (fun _ => 0, false)
  inv := fun _ _ _ => 0

/-- Witness for C6 (amended): on the concrete failing run with a
1-column design, the minimize call indeed failed and `p ≤ 2`. -/
theorem C6_grid_fallback_trigger_witness :
    (oC6.minimize (irls_f 1 1 oC6 (fun _ _ => 1) (fun _ => 3) (fun _ => 1) (fun _ => 1) 1 (1/2))
        (irls_df 1 1 oC6 (fun _ _ => 1) (fun _ => 3) (fun _ => 1) (fun _ => 1) 1 (1/2))
        (irls_beta_init 1 1 oC6 (fun _ => 3) (fun _ => 1) (fun _ => 1)) (-30) 30).2 =
      false ∧ (1 : ℕ) ≤ 2 :=
  C6_grid_fallback_trigger 1 1 oC6 (fun _ => 3) (fun _ => 1) (fun _ _ => 1)
    (fun _ => 1) 1 (1/2) 0 (-30) 30 1 rfl

/-- Counterexample to C6 as stated: with a ONE-column design (not two),
a failed quasi-Newton fit still invokes the grid-search fallback
(checkpoint line 131 tests `num_vars <= 2`, not `== 2`). -/
theorem C6_grid_fallback_counterexample :
    (irls_glm 1 1 oC6 (fun _ => 3) (fun _ => 1) (fun _ _ => 1)
      (fun _ => 1) 1 (1/2) 0 (-30) 30 1).hitGridFallback = true ∧ (1 : ℕ) ≠ 2 :=
  ⟨rfl, by decide⟩

/-- C1 (amended): the CNV offset handed to `inference.irls_glm` is
`cnv/2 + 0.1` (sliced to non-zero genes) in `fit_LFC`, and the RAW stored
CNV matrix (sliced to non-zero genes, with no rescaling and in particular
not fixed at 1) in `fit_genewise_dispersions` when its IRLS branch runs. -/
theorem C1_cnv_offsets_amended (m n knz p : ℕ) (s : DState m n knz p)
    (i : Fin m) (j' : Fin knz)
    (h : fit_genewise_uses_irls m p s.design_matrix = true) :
    fit_LFC_cnv_arg m n knz p s i j' =
      s.data_cnv i (s.non_zero_idx j') / 2 + 1/10 ∧
    fit_genewise_cnv_arg m n knz p s i j' = s.data_cnv i (s.non_zero_idx j') :=
  ⟨rfl, rfl⟩

/-- A concrete two-sample, one-gene `deconveil_fit` state with CNV value 4
everywhere and a design matrix with two distinct rows (so
`fit_genewise_dispersions` takes its IRLS branch). -/
def sC1 : DState 2 1 1 1 where
  data_counts := fun _ _ => 5
  data_cnv := fun _ _ => 4
  design_matrix := fun i _ => if i = 0 then 1 else 2
  size_factors := fun _ => 1
  non_zero_idx := fun _ => 0
  inv_idx := fun _ => some 0
  gene_index := fun _ => 0
  min_disp := 0
  max_disp := 10
  min_mu := 1/2
  beta_tol := 1/100000000
  mu_hat := fun _ _ => some 1
  genewise_dispersions := fun _ => some 1
  fitted_dispersions := fun _ => some 1
  squared_logres := some 0
  prior_disp_var := some 1
  MAP_dispersions := none
  MAP_converged := none
  dispersions := none
  outlier_genes := none
  LFC := none
  mu_LFC := none
  hat_diagonals := none
  LFC_converged := none

/-- Witness for C1 (amended): on `sC1` the genewise IRLS branch is taken
and the two CNV arguments are as characterized, the stored CNV entry
being 4. -/
theorem C1_cnv_offsets_witness :
    fit_genewise_uses_irls 2 1 sC1.design_matrix = true ∧
    fit_LFC_cnv_arg 2 1 1 1 sC1 0 0 =
      sC1.data_cnv 0 (sC1.non_zero_idx 0) / 2 + 1/10 ∧
    fit_genewise_cnv_arg 2 1 1 1 sC1 0 0 = sC1.data_cnv 0 (sC1.non_zero_idx 0) ∧
    sC1.data_cnv 0 (sC1.non_zero_idx 0) = 4 :=
  ⟨by decide, (C1_cnv_offsets_amended 2 1 1 1 sC1 0 0 (by decide)).1,
    (C1_cnv_offsets_amended 2 1 1 1 sC1 0 0 (by decide)).2, rfl⟩

/-- Counterexample to C1 as stated: in `fit_genewise_dispersions` (IRLS
branch taken on `sC1`) the CNV offset handed to the solver is the raw
stored value 4, not 1 (dds.py lines 522 and 536-544 pass
`cnv[:, non_zero_idx]` with no rescaling). -/
theorem C1_cnv_offsets_counterexample :
    fit_genewise_cnv_arg 2 1 1 1 sC1 0 0 = 4 ∧ ((4 : ℚ) ≠ 1) ∧
      fit_genewise_uses_irls 2 1 sC1.design_matrix = true :=
  ⟨rfl, by norm_num, by decide⟩

theorem anyFin_intro {n : ℕ} {f : Fin n → Bool} (i : Fin n) (h : f i = true) :
    anyFin n f = true :=
  anyFin_eq_true_iff.mpr ⟨i, h⟩

theorem anyFin_eq_false {n : ℕ} {f : Fin n → Bool} (h : ∀ i, f i = false) :
    anyFin n f = false := by
  unfold anyFin
  rw [List.any_eq_false]
  intro i _
  rw [h i]
  exact Bool.false_ne_true

theorem replace_row_selected_eq (m n : ℕ) (cooks : Fin m → Fin n → Option ℚ)
    (replaceable : Fin m → Bool) (cooks_cutoff : ℚ) (s : Fin m) :
    anyFin n (fun j2 =>
        anyFin m (fun s2 => optGt (cooks s2 j2) (some cooks_cutoff)) &&
          (replaceable s && optGt (cooks s j2) (some cooks_cutoff))) =
      (replaceable s &&
        anyFin n (fun j2 => optGt (cooks s j2) (some cooks_cutoff))) := by
  rw [Bool.eq_iff_iff]
  simp only [anyFin_eq_true_iff, Bool.and_eq_true]
  constructor
  · rintro ⟨j2, _, hrab, hidx⟩
    exact ⟨hrab, j2, hidx⟩
  · rintro ⟨hrab, j2, hidx⟩
    exact ⟨j2, ⟨s, hidx⟩, hrab, hidx⟩

/-- C4 (amended): replacement in `_replace_outliers` is per-SAMPLE-row,
not per-entry, and truncates.  For any gene `j` marked `replaced` (some
sample's Cook's distance exceeds the cutoff), the refit-matrix entry at
`(s, j)` is `int(trimmed_mean(normalized column j) * size_factor[s])`
(truncation, not rounding) whenever sample `s` is replaceable AND has at
least one above-cutoff Cook's entry at ANY gene — even if its own Cook's
distance at `j` is below the cutoff — and is the original count
otherwise.  The stored raw count matrix is never written. -/
theorem C4_replace_outliers_rowwise (m n : ℕ) (counts : Fin m → Fin n → ℤ)
    (cooks : Fin m → Fin n → Option ℚ) (replaceable : Fin m → Bool)
    (size_factors : Fin m → ℚ) (trimmed_mean : (Fin m → ℚ) → ℚ)
    (cooks_cutoff : ℚ) (hrep : anyFin m replaceable = true) (j : Fin n)
    (hj : (_replace_outliers m n counts cooks replaceable size_factors
      trimmed_mean cooks_cutoff).replaced j = true) (s : Fin m) :
    (_replace_outliers m n counts cooks replaceable size_factors
        trimmed_mean cooks_cutoff).counts_to_refit s j =
      if replaceable s &&
          anyFin n (fun j2 => optGt (cooks s j2) (some cooks_cutoff)) then
        np_astype_int
          (trimmed_mean (fun i => (counts i j : ℚ) / size_factors i) *
            size_factors s)
      else counts s j := by
  unfold _replace_outliers at hj ⊢
  rw [hrep] at hj ⊢
  simp only [Bool.not_true, Bool.false_eq_true, if_false] at hj ⊢
  have hj' : anyFin m (fun s2 => optGt (cooks s2 j) (some cooks_cutoff)) = true := by
    by_cases hc : (anyFin n
        (fun j2 => anyFin m (fun s2 => optGt (cooks s2 j2) (some cooks_cutoff)))) = true
    · rw [if_pos hc] at hj
      exact hj
    · rw [if_neg hc] at hj
      exact hj
  rw [if_pos (anyFin_intro j hj')]
  show (if ((anyFin m fun s2 => optGt (cooks s2 j) (some cooks_cutoff)) &&
        anyFin n fun j2 =>
          (anyFin m fun s2 => optGt (cooks s2 j2) (some cooks_cutoff)) &&
            (replaceable s && optGt (cooks s j2) (some cooks_cutoff))) = true then
      np_astype_int
        ((trimmed_mean fun i => ((counts i j : ℚ)) / size_factors i) * size_factors s)
    else counts s j) = _
  rw [hj', Bool.true_and, replace_row_selected_eq m n cooks replaceable cooks_cutoff s]

/-- Concrete 2-sample, 2-gene inputs for C4: Cook's outliers on the
diagonal only, all samples replaceable, unit size factors, trimmed mean
1.9 for every column. -/
def cooks4W : Fin 2 → Fin 2 → Option ℚ :=
  fun s j => if s = j then some 10 else some 0

/-- Witness for C4 (amended): on the concrete inputs, gene 1 is replaced
and the entry of sample 0 at gene 1 follows the row-wise
characterization. -/
theorem C4_replace_outliers_rowwise_witness :
    (_replace_outliers 2 2 (fun _ _ => 5) cooks4W (fun _ => true) (fun _ => 1)
        (fun _ => 19/10) 1).counts_to_refit 0 1 =
      if true && anyFin 2 (fun j2 => optGt (cooks4W 0 j2) (some 1)) then
        np_astype_int ((19 : ℚ)/10 * 1)
      else 5 :=
  C4_replace_outliers_rowwise 2 2 (fun _ _ => 5) cooks4W (fun _ => true)
    (fun _ => 1) (fun _ => 19/10) 1 rfl 1 rfl 0

/-- Counterexample to C4 as stated: on the concrete inputs the entry
(sample 0, gene 1) has Cook's distance 0, below the cutoff 1, yet its
refit count is overwritten (to `int(1.9 * 1) = 1`): the row-wise
`.loc` assignment at dds.py line 1068 replaces the whole row of every
replaceable sample that has an outlier at ANY replaced gene, and the
written value is truncated (1), not rounded (2). -/
theorem C4_replace_outliers_counterexample :
    (_replace_outliers 2 2 (fun _ _ => 5) cooks4W (fun _ => true) (fun _ => 1)
        (fun _ => 19/10) 1).counts_to_refit 0 1 = 1 ∧
      optGt (cooks4W 0 1) (some 1) = false ∧ ((1 : ℤ) ≠ 5) ∧ ((1 : ℤ) ≠ 2) := by
  have hred : (_replace_outliers 2 2 (fun _ _ => 5) cooks4W (fun _ => true)
      (fun _ => 1) (fun _ => 19/10) 1).counts_to_refit 0 1 =
      np_astype_int (19/10 * 1) := rfl
  refine ⟨?_, rfl, by decide, by decide⟩
  rw [hred]
  norm_num [np_astype_int]

/-- C8: a gene whose counts are all zero is excluded by the `non_zero`
mask from every fitting stage, so its genewise dispersion, final
dispersion, LFC row and fitted-mean entries are all NaN; its Cook's
entries are NaN too, so the refit step never marks it `replaced` and the
merged post-refit arrays keep the NaN placeholders. -/
theorem C8_all_zero_gene_outputs_nan (m n q : ℕ)
    (counts : Fin m → Fin n → ℤ)
    (gw_vals MAP_vals fitted_vals sub_disp : Fin n → ℚ)
    (lfc_vals sub_lfc : Fin n → Fin q → ℚ)
    (mu_vals cooks_vals : Fin m → Fin n → ℚ)
    (log sqrt : ℚ → ℚ) (squared_logres : ℚ)
    (replaceable : Fin m → Bool) (size_factors : Fin m → ℚ)
    (trimmed_mean : (Fin m → ℚ) → ℚ) (cooks_cutoff : ℚ)
    (j : Fin n) (hz : ∀ i, counts i j = 0) (s : Fin m) (c : Fin q) :
    non_zero_mask m n counts j = false ∧
    scatter_vec n (non_zero_mask m n counts) gw_vals j = none ∧
    scatter_mat m n (non_zero_mask m n counts) mu_vals s j = none ∧
    scatter_rows n q (non_zero_mask m n counts) lfc_vals j c = none ∧
    dispersions_after_filter n
      (outlier_genes_mask log sqrt n
        (scatter_vec n (non_zero_mask m n counts) gw_vals)
        (scatter_vec n (non_zero_mask m n counts) fitted_vals) squared_logres)
      (scatter_vec n (non_zero_mask m n counts) MAP_vals)
      (scatter_vec n (non_zero_mask m n counts) gw_vals) j = none ∧
    (_replace_outliers m n counts
        (scatter_mat m n (non_zero_mask m n counts) cooks_vals)
        replaceable size_factors trimmed_mean cooks_cutoff).replaced j = false ∧
    refit_merge_vec n
      (refitted_mask m n
        (_replace_outliers m n counts
          (scatter_mat m n (non_zero_mask m n counts) cooks_vals)
          replaceable size_factors trimmed_mean cooks_cutoff).replaced
        (_replace_outliers m n counts
          (scatter_mat m n (non_zero_mask m n counts) cooks_vals)
          replaceable size_factors trimmed_mean cooks_cutoff).counts_to_refit)
      (dispersions_after_filter n
        (outlier_genes_mask log sqrt n
          (scatter_vec n (non_zero_mask m n counts) gw_vals)
          (scatter_vec n (non_zero_mask m n counts) fitted_vals) squared_logres)
        (scatter_vec n (non_zero_mask m n counts) MAP_vals)
        (scatter_vec n (non_zero_mask m n counts) gw_vals))
      sub_disp j = none ∧
    refit_merge_LFC n q
      (new_all_zeroes_mask m n
        (_replace_outliers m n counts
          (scatter_mat m n (non_zero_mask m n counts) cooks_vals)
          replaceable size_factors trimmed_mean cooks_cutoff).replaced
        (_replace_outliers m n counts
          (scatter_mat m n (non_zero_mask m n counts) cooks_vals)
          replaceable size_factors trimmed_mean cooks_cutoff).counts_to_refit)
      (refitted_mask m n
        (_replace_outliers m n counts
          (scatter_mat m n (non_zero_mask m n counts) cooks_vals)
          replaceable size_factors trimmed_mean cooks_cutoff).replaced
        (_replace_outliers m n counts
          (scatter_mat m n (non_zero_mask m n counts) cooks_vals)
          replaceable size_factors trimmed_mean cooks_cutoff).counts_to_refit)
      (scatter_rows n q (non_zero_mask m n counts) lfc_vals)
      sub_lfc j c = none := by
  have hmask : non_zero_mask m n counts j = false := by
    unfold non_zero_mask
    rw [allFin_eq_true_iff.mpr (fun i => by rw [hz i]; rfl)]
    rfl
  have hcooks : ∀ s2 : Fin m,
      optGt (scatter_mat m n (non_zero_mask m n counts) cooks_vals s2 j)
        (some cooks_cutoff) = false := by
    intro s2
    unfold scatter_mat
    rw [hmask]
    rfl
  have hRrep : (_replace_outliers m n counts
      (scatter_mat m n (non_zero_mask m n counts) cooks_vals)
      replaceable size_factors trimmed_mean cooks_cutoff).replaced j = false := by
    simp only [_replace_outliers]
    split
    · rfl
    · split
      · exact anyFin_eq_false hcooks
      · exact anyFin_eq_false hcooks
  have hdisp0 : dispersions_after_filter n
      (outlier_genes_mask log sqrt n
        (scatter_vec n (non_zero_mask m n counts) gw_vals)
        (scatter_vec n (non_zero_mask m n counts) fitted_vals) squared_logres)
      (scatter_vec n (non_zero_mask m n counts) MAP_vals)
      (scatter_vec n (non_zero_mask m n counts) gw_vals) j = none := by
    unfold dispersions_after_filter scatter_vec
    rw [hmask]
    simp
  have hrefit : refitted_mask m n
      (_replace_outliers m n counts
        (scatter_mat m n (non_zero_mask m n counts) cooks_vals)
        replaceable size_factors trimmed_mean cooks_cutoff).replaced
      (_replace_outliers m n counts
        (scatter_mat m n (non_zero_mask m n counts) cooks_vals)
        replaceable size_factors trimmed_mean cooks_cutoff).counts_to_refit j = false := by
    unfold refitted_mask
    rw [hRrep]
    rfl
  have hnaz : new_all_zeroes_mask m n
      (_replace_outliers m n counts
        (scatter_mat m n (non_zero_mask m n counts) cooks_vals)
        replaceable size_factors trimmed_mean cooks_cutoff).replaced
      (_replace_outliers m n counts
        (scatter_mat m n (non_zero_mask m n counts) cooks_vals)
        replaceable size_factors trimmed_mean cooks_cutoff).counts_to_refit j = false := by
    unfold new_all_zeroes_mask
    rw [hRrep]
    rfl
  refine ⟨hmask, ?_, ?_, ?_, hdisp0, hRrep, ?_, ?_⟩
  · unfold scatter_vec
    rw [hmask]
    rfl
  · unfold scatter_mat
    rw [hmask]
    rfl
  · unfold scatter_rows
    rw [hmask]
    rfl
  · unfold refit_merge_vec
    rw [hrefit]
    simp only [Bool.false_eq_true, if_false]
    exact hdisp0
  · unfold refit_merge_LFC
    rw [hnaz, hrefit]
    simp only [Bool.false_eq_true, if_false]
    unfold scatter_rows
    rw [hmask]
    rfl

/-- Concrete counts for the C8 witness: one sample, two genes, gene 0
all-zero. -/
def counts8W : Fin 1 → Fin 2 → ℤ := fun _ j => if j = 0 then 0 else 3

/-- The C8 witness run of `_replace_outliers` on the NaN-scattered Cook's
layer of `counts8W`. -/
def R8W : ReplaceOutliersResult 1 2 :=
  _replace_outliers 1 2 counts8W
    (scatter_mat 1 2 (non_zero_mask 1 2 counts8W) (fun _ _ => 1))
    (fun _ => true) (fun _ => 1) (fun _ => 1) 1

/-- Witness for C8: on the concrete one-sample dataset whose gene 0 has
only zero counts, the mask excludes gene 0, its outputs are NaN, the
refit step does not mark it replaced, and the merged post-refit
dispersion and LFC entries stay NaN. -/
theorem C8_all_zero_gene_outputs_nan_witness :
    non_zero_mask 1 2 counts8W 0 = false ∧
    scatter_vec 2 (non_zero_mask 1 2 counts8W) (fun _ => 1) 0 = none ∧
    R8W.replaced 0 = false ∧
    refit_merge_vec 2 (refitted_mask 1 2 R8W.replaced R8W.counts_to_refit)
      (dispersions_after_filter 2
        (outlier_genes_mask id id 2
          (scatter_vec 2 (non_zero_mask 1 2 counts8W) (fun _ => 1))
          (scatter_vec 2 (non_zero_mask 1 2 counts8W) (fun _ => 1)) 0)
        (scatter_vec 2 (non_zero_mask 1 2 counts8W) (fun _ => 1))
        (scatter_vec 2 (non_zero_mask 1 2 counts8W) (fun _ => 1)))
      (fun _ => 0) 0 = none ∧
    refit_merge_LFC 2 1 (new_all_zeroes_mask 1 2 R8W.replaced R8W.counts_to_refit)
      (refitted_mask 1 2 R8W.replaced R8W.counts_to_refit)
      (scatter_rows 2 1 (non_zero_mask 1 2 counts8W) (fun _ _ => 1))
      (fun _ _ => 0) 0 0 = none := by
  have h := C8_all_zero_gene_outputs_nan 1 2 1 counts8W (fun _ => 1) (fun _ => 1)
    (fun _ => 1) (fun _ => 0) (fun _ _ => 1) (fun _ _ => 0) (fun _ _ => 1)
    (fun _ _ => 1) id id 0 (fun _ => true) (fun _ => 1) (fun _ => 1) 1 0
    (by decide) 0 0
  exact ⟨h.1, h.2.1, h.2.2.2.2.2.1, h.2.2.2.2.2.2.1, h.2.2.2.2.2.2.2⟩

end DeConveil
